import Mathlib

/-!
# project-auth backend (`backend/server.js`)

A shallow embedding of the Express handlers of `server.js` over an explicit
database state, followed by the properties proved about them.

Modelling conventions.

* The two Mongo collections are lists of documents in insertion order, the
  order in which an unsorted `findOne` meets them.
* A handler is a function from the database before the request to the
  database after it and the response that was sent.
* `req.body` fields and the `Authorization` header are `Option String`:
  `none` is JavaScript `undefined` (the field or header is absent). JSON
  values that are not strings are outside the model.
* The values a handler draws from its environment while it runs
  (`bcrypt.genSaltSync()`, `crypto.randomBytes`, the fresh `_id`,
  `new Date()`) are passed in as a `Draw`; `bcrypt.hashSync` and
  `bcrypt.compareSync` are the two fields of `Bcrypt`.
* The database is taken to be reachable. A `catch` branch is therefore
  entered only by what the handler's own steps throw: a `TypeError`, a bcrypt
  argument error, a Mongoose validation or cast error, a duplicate key.
* `hearts` is a Mongoose `Number`, an IEEE double; the model holds its
  integer values and `numberInc` is the double addition of 1 on them.
  Fractional values, NaN and the infinities are outside the model.
  `createdAt` is an integer number of milliseconds and is only compared.
-/

namespace ProjectAuth

/-! ## Data model -/

/-- Mongo document identifier, as the 96-bit number an ObjectId holds. -/
abbrev ObjectId := Nat

/-- Length of a JavaScript string as `.length` reports it: the number of
UTF-16 code units, two for a character outside the basic plane. -/
def jsLength (s : String) : Nat :=
  (s.data.map (fun c => if c.toNat < 65536 then 1 else 2)).sum

/-- Document of the `User` model (`UserSchema`). -/
structure User where
  _id : ObjectId
  username : String
  password : String
  accessToken : String
deriving DecidableEq

/-- Document of the `Thoughts` model (`ThoughtsSchema`). -/
structure Thoughts where
  _id : ObjectId
  username : Option String
  message : String
  createdAt : Int
  hearts : Int
deriving DecidableEq

/-- State of the database: the two collections. -/
structure Db where
  users : List User
  thoughts : List Thoughts
deriving DecidableEq

/-- Values a handler obtains from its environment during one request. -/
structure Draw where
  /-- result of `bcrypt.genSaltSync()` -/
  salt : String
  /-- result of `crypto.randomBytes(128).toString('hex')` -/
  token : String
  /-- identifier given to a document created by `new Model(...)` -/
  oid : ObjectId
  /-- result of `new Date()`, in milliseconds -/
  now : Int
deriving DecidableEq

/-- The two bcrypt functions the server calls, on string arguments. -/
structure Bcrypt where
  hashSync : String → String → String
  compareSync : String → String → Bool

/-- Exceptions that reach a `catch` block of a handler. -/
inductive Thrown where
  /-- reading `.length` of `undefined` -/
  | typeError
  /-- bcrypt called with a missing argument -/
  | bcryptArguments
  /-- Mongoose `ValidationError`; the paths are the keys of `err.errors` -/
  | validationError (paths : List String)
  /-- Mongo duplicate key error E11000 on the named index -/
  | duplicateKey (index : String)
  /-- Mongoose `CastError` on the named path -/
  | castError (path : String)
deriving DecidableEq

/-- The keys of `err.errors`; `undefined` unless a validation error. -/
def Thrown.errors : Thrown → Option (List String)
  | .validationError paths => some paths
  | _ => none

/-- Value of the `response` key of a JSON envelope. -/
inductive Payload where
  | text (s : String)
  | credentials (username : String) (accessToken : String) (id : ObjectId)
  | thrown (e : Thrown)
  /-- a thought document, or `null` -/
  | document (t : Option Thoughts)
deriving DecidableEq

/-- JSON body of a response. In an envelope the `error` key is `none` when
the handler does not set it or sets it to `undefined`. -/
inductive Body where
  | envelope (success : Bool) (response : Payload) (error : Option (List String))
  | list (thoughts : List Thoughts)
  | routes
deriving DecidableEq

/-- What `res.status(..).json(..)` sends. -/
structure Response where
  status : Nat
  body : Body
deriving DecidableEq

/-! ## Store operations (Mongoose) -/

/-- Query `User.findOne({ username })`. An `undefined` value is sent as `null`
and matches only a document without the field, of which there is none. -/
def findOneByUsername (users : List User) (username : Option String) : Option User :=
  match username with
  | none => none
  | some name => users.find? (fun u => decide (u.username = name))

/-- Query `User.findOne({ accessToken })`, with the same reading of `undefined`. -/
def findOneByAccessToken (users : List User) (accessToken : Option String) : Option User :=
  match accessToken with
  | none => none
  | some t => users.find? (fun u => decide (u.accessToken = t))

/-- Mongoose `required: true` on a String path: present and not empty. -/
def requiredOk (v : Option String) : Bool :=
  match v with
  | none => false
  | some s => decide (s ≠ "")

/-- Document construction and `.save()` for `User`: validation of the two required paths, then
insertion under the `_id` index and the `unique: true` index on `username`.
Returns the stored document. -/
def saveUser (users : List User) (username : Option String) (password : String) (d : Draw) :
    Except Thrown User :=
  let failed := (if requiredOk username then [] else ["username"]) ++
    (if requiredOk (some password) then [] else ["password"])
  match username, failed with
  | some name, [] =>
    if users.any (fun u => decide (u._id = d.oid)) then .error (.duplicateKey "_id")
    else if users.any (fun u => decide (u.username = name)) then .error (.duplicateKey "username")
    else .ok { _id := d.oid, username := name, password := password, accessToken := d.token }
  | _, _ => .error (.validationError failed)

/-- Document construction and `.save()` for `Thoughts`: `message` is required, `createdAt` and
`hearts` take their defaults, the `accessToken` key is not in the schema. -/
def saveThoughts (thoughts : List Thoughts) (username message : Option String) (d : Draw) :
    Except Thrown Thoughts :=
  match message, requiredOk message with
  | some msg, true =>
    if thoughts.any (fun t => decide (t._id = d.oid)) then .error (.duplicateKey "_id")
    else .ok { _id := d.oid, username := username, message := msg, createdAt := d.now, hearts := 0 }
  | _, _ => .error (.validationError ["message"])

/-- Insert one thought into a list already ordered newest first; among equal
dates the inserted one goes first. -/
def insertDesc (t : Thoughts) : List Thoughts → List Thoughts
  | [] => [t]
  | x :: xs => if x.createdAt ≤ t.createdAt then t :: x :: xs else x :: insertDesc t xs

/-- The `.sort({ createdAt: 'desc' })` stage, ties kept in insertion order. -/
def sortDesc : List Thoughts → List Thoughts
  | [] => []
  | t :: ts => insertDesc t (sortDesc ts)

/-- Value of one hexadecimal digit. -/
def hexDigit (c : Char) : Option Nat :=
  if 48 ≤ c.toNat ∧ c.toNat ≤ 57 then some (c.toNat - 48)
  else if 97 ≤ c.toNat ∧ c.toNat ≤ 102 then some (c.toNat - 87)
  else if 65 ≤ c.toNat ∧ c.toNat ≤ 70 then some (c.toNat - 55)
  else none

/-- Number written by a list of hexadecimal digits, most significant first. -/
def hexValue : List Char → Nat → Option Nat
  | [], acc => some acc
  | c :: cs, acc =>
    match hexDigit c with
    | some v => hexValue cs (acc * 16 + v)
    | none => none

/-- The UTF-16 code units of a JavaScript string, a surrogate pair for a
character outside the basic plane. -/
def utf16Units : List Char → List Nat
  | [] => []
  | c :: cs =>
    if c.toNat < 65536 then c.toNat :: utf16Units cs
    else (55296 + (c.toNat - 65536) / 1024) :: (56320 + (c.toNat - 65536) % 1024) :: utf16Units cs

/-- Number written by a list of bytes, most significant first; of each code
unit only the low byte is kept, as a binary string is written. -/
def bytesValue : List Nat → Nat → Nat
  | [], acc => acc
  | b :: bs, acc => bytesValue bs (acc * 256 + b % 256)

/-- Mongoose's cast of the `:thoughtsID` path parameter to an ObjectId: a
string of `.length` 12 is taken as the twelve bytes themselves, a string of
24 hexadecimal digits as their value. Anything else is a `CastError`. -/
def castObjectId (s : String) : Option ObjectId :=
  if jsLength s = 12 then some (bytesValue (utf16Units s.data) 0)
  else if s.data.length = 24 then hexValue s.data 0
  else none

/-- Query `Thoughts.findById`: the document holding the identifier. -/
def findThoughtsById (thoughts : List Thoughts) (id : ObjectId) : Option Thoughts :=
  thoughts.find? (fun t => decide (t._id = id))

/-- The sum `h + 1` of JavaScript Numbers for an integer `h` held in a
double: exact while the result is at most 2^53 in size; between 2^53 and
2^54, where doubles are the even integers, the odd sum is rounded to the
neighbour with an even significand; beyond, the sum rounds back to `h`. -/
def numberInc (h : Int) : Int :=
  if -9007199254740992 ≤ h ∧ h < 9007199254740992 then h + 1
  else if -18014398509481984 ≤ h ∧ h < 18014398509481984 then
    (if (h / 2) % 2 = 0 then h else h + 2)
  else h

/-- The update `{ $inc: { hearts: 1 } }` applied to the document holding the
identifier, the first one met. -/
def incHearts (id : ObjectId) : List Thoughts → List Thoughts
  | [] => []
  | t :: ts =>
    if t._id = id then { t with hearts := numberInc t.hearts } :: ts else t :: incHearts id ts

/-! ## Middleware and route handlers -/

/-- What a middleware did: called `next()` or sent a response. -/
inductive Outcome where
  | next
  | sent (res : Response)
deriving DecidableEq

/-- The `authenticateUser` middleware. -/
def authenticateUser (users : List User) (authorization : Option String) : Outcome :=
  match findOneByAccessToken users authorization with
  | some _ => .next
  | none => .sent ⟨401, .envelope false (.text " Please log in ") none⟩

/-- Handler of `POST /register`. -/
def register (B : Bcrypt) (d : Draw) (db : Db) (username password : Option String) :
    Db × Response :=
  let usernameUsed := findOneByUsername db.users username
  match password with
  | none => (db, ⟨400, .envelope false (.thrown .typeError) none⟩)
  | some pw =>
    if jsLength pw < 8 then
      (db, ⟨400, .envelope false (.text "Password must be at least 8 characters long.") none⟩)
    else if usernameUsed.isSome then
      (db, ⟨400, .envelope false (.text "Username already in use") none⟩)
    else
      match saveUser db.users username (B.hashSync pw d.salt) d with
      | .ok newUser =>
        ({ db with users := db.users ++ [newUser] },
          ⟨201, .envelope true
            (.credentials newUser.username newUser.accessToken newUser._id) none⟩)
      | .error e => (db, ⟨400, .envelope false (.thrown e) none⟩)

/-- Handler of `POST /login`. -/
def login (B : Bcrypt) (db : Db) (username password : Option String) : Db × Response :=
  match findOneByUsername db.users username with
  | some user =>
    match password with
    | none => (db, ⟨500, .envelope false (.thrown .bcryptArguments) none⟩)
    | some pw =>
      if B.compareSync pw user.password then
        (db, ⟨200, .envelope true (.credentials user.username user.accessToken user._id) none⟩)
      else
        (db, ⟨400, .envelope false (.text "Credentials didn't match") none⟩)
  | none => (db, ⟨400, .envelope false (.text "Credentials didn't match") none⟩)

/-- Second handler of `GET /thoughts`, reached after `next()`. -/
def listThoughts (db : Db) : Db × Response :=
  (db, ⟨201, .list ((sortDesc db.thoughts).take 20)⟩)

/-- Route `GET /thoughts`: the middleware, then the handler. -/
def getThoughts (db : Db) (authorization : Option String) : Db × Response :=
  match authenticateUser db.users authorization with
  | .next => listThoughts db
  | .sent res => (db, res)

/-- Handler of `POST /thoughts`; no middleware is installed on it. -/
def postThoughts (d : Draw) (db : Db) (username message : Option String) : Db × Response :=
  match saveThoughts db.thoughts username message d with
  | .ok newThoughts =>
    ({ db with thoughts := db.thoughts ++ [newThoughts] },
      ⟨201, .envelope true (.document (some newThoughts)) none⟩)
  | .error e => (db, ⟨400, .envelope false (.text "Can't post new thoughts") e.errors⟩)

/-- Second handler of `POST /thoughts/:thoughtsID/like`, reached after
`next()`. `findByIdAndUpdate` returns the document as it was before the
update, `null` when no document holds the identifier. -/
def likeThoughts (db : Db) (thoughtsID : String) : Db × Response :=
  match castObjectId thoughtsID with
  | some id =>
    ({ db with thoughts := incHearts id db.thoughts },
      ⟨200, .envelope true (.document (findThoughtsById db.thoughts id)) none⟩)
  | none => (db, ⟨400, .envelope false (.text "Can't update Likes") none⟩)

/-- Route `POST /thoughts/:thoughtsID/like`: the middleware, then the handler. -/
def postLike (db : Db) (authorization : Option String) (thoughtsID : String) : Db × Response :=
  match authenticateUser db.users authorization with
  | .next => likeThoughts db thoughtsID
  | .sent res => (db, res)

/-- One request to the API. -/
inductive Request where
  | root
  | register (username password : Option String)
  | login (username password : Option String)
  | getThoughts (authorization : Option String)
  | postThoughts (authorization : Option String) (username message : Option String)
  | postLike (authorization : Option String) (thoughtsID : String)
deriving DecidableEq

/-- The server handling one request with the values drawn during it. -/
def handle (B : Bcrypt) (db : Db) (d : Draw) (req : Request) : Db × Response :=
  match req with
  | .root => (db, ⟨200, .routes⟩)
  | .register username password => register B d db username password
  | .login username password => login B db username password
  | .getThoughts authorization => getThoughts db authorization
  | .postThoughts _ username message => postThoughts d db username message
  | .postLike authorization thoughtsID => postLike db authorization thoughtsID

/-- The database after a sequence of requests handled one after another. -/
def run (B : Bcrypt) (db : Db) : List (Draw × Request) → Db
  | [] => db
  | (d, req) :: rest => run B (handle B db d req).1 rest

/-- The empty database. -/
def emptyDb : Db := ⟨[], []⟩

/-- The route applied `n` times in a row with the same header and identifier. -/
def likeTimes (authorization : Option String) (thoughtsID : String) : Nat → Db → Db
  | 0, db => db
  | n + 1, db => likeTimes authorization thoughtsID n (postLike db authorization thoughtsID).1

/-- A stand-in for bcrypt used to evaluate the handlers on examples: the
hash is the salt followed by the password. -/
def sampleBcrypt : Bcrypt where
  hashSync := fun pw salt => salt ++ pw
  compareSync := fun pw hash => decide (pw.data <:+ hash.data)

/-- A database with one registered user and no thought, for the examples. -/
def sampleDb : Db :=
  ⟨[{ _id := 1, username := "alice", password := "saltpassword1", accessToken := "tok1" }], []⟩

/-- Values drawn during the example requests. -/
def sampleDraw : Draw := ⟨"salt", "tok2", 2, 1000⟩

/-- A password of four characters outside the basic plane (U+1F600 four
times): four characters, `.length` 8. -/
def astralPassword : String := String.mk (List.replicate 4 (Char.ofNat 128512))

/-- A database whose only thought, identifier 10, has 2^53 hearts. -/
def saturatedBoard : Db :=
  ⟨sampleDb.users, [⟨10, some "alice", "hello", 5000, 9007199254740992⟩]⟩

/-- A database with one registered user and twenty-one thoughts, identifiers
100 to 120, each posted one millisecond after the one before. -/
def sampleBoard : Db :=
  ⟨sampleDb.users,
    (List.range 21).map (fun i => ⟨100 + i, some "alice", "hello", 5000 + (i : Int), 0⟩)⟩

/-! ## Helper lemmas -/

theorem find?_username_none (users : List User) (name : String)
    (h : ∀ u ∈ users, some u.username ≠ some name) :
    users.find? (fun u => decide (u.username = name)) = none := by
  rw [List.find?_eq_none]
  intro u hu
  have := h u hu
  simpa using this

theorem find?_token_none (users : List User) (t : String)
    (h : ∀ u ∈ users, some u.accessToken ≠ some t) :
    users.find? (fun u => decide (u.accessToken = t)) = none := by
  rw [List.find?_eq_none]
  intro u hu
  have := h u hu
  simpa using this

theorem findOneByUsername_none (users : List User) (username : Option String)
    (h : ∀ u ∈ users, some u.username ≠ username) :
    findOneByUsername users username = none := by
  cases username with
  | none => rfl
  | some name => exact find?_username_none users name h

theorem findOneByAccessToken_none (users : List User) (authorization : Option String)
    (h : ∀ u ∈ users, some u.accessToken ≠ authorization) :
    findOneByAccessToken users authorization = none := by
  cases authorization with
  | none => rfl
  | some t => exact find?_token_none users t h

/-! ## Registration: password length -/

/-- C1 as stated fails: a password of four characters, each outside the
basic plane, has `.length` 8; with a free username `POST /register` accepts
it, answers 201 and stores the user. -/
theorem register_four_astral_characters :
    astralPassword.length = 4 ∧ jsLength astralPassword = 8 ∧
    (register sampleBcrypt sampleDraw emptyDb (some "alice") (some astralPassword)).2 =
      ⟨201, .envelope true (.credentials "alice" "tok2" 2) none⟩ ∧
    (register sampleBcrypt sampleDraw emptyDb (some "alice") (some astralPassword)).1.users.length
      = 1 := by
  decide

/-- C1 amended: whatever the database and the username (present or absent,
taken or free), a string password whose `.length`, its number of UTF-16 code
units, is below 8 makes `POST /register` answer 400 with success false and
the response "Password must be at least 8 characters long.", and the
database is left as it was. -/
theorem register_short_password (B : Bcrypt) (d : Draw) (db : Db)
    (username : Option String) (pw : String) (h : jsLength pw < 8) :
    register B d db username (some pw) =
      (db, ⟨400, .envelope false
        (.text "Password must be at least 8 characters long.") none⟩) := by
  simp [register, h]

theorem register_short_password_witness :
    jsLength "short" < 8 ∧
    register sampleBcrypt sampleDraw sampleDb (some "alice") (some "short") =
      (sampleDb, ⟨400, .envelope false
        (.text "Password must be at least 8 characters long.") none⟩) :=
  ⟨by decide, register_short_password sampleBcrypt sampleDraw sampleDb (some "alice") "short"
    (by decide)⟩

/-! ## Middleware: unknown token -/

/-- C8 as stated fails: with a header that is the token of no user the
middleware answers 401, but the response string is the phrase with a space on
each side, not the bare phrase. -/
theorem authenticateUser_response_is_padded :
    (∀ u ∈ sampleDb.users, some u.accessToken ≠ some "nope") ∧
    authenticateUser sampleDb.users (some "nope") =
      .sent ⟨401, .envelope false (.text " Please log in ") none⟩ ∧
    authenticateUser sampleDb.users (some "nope") ≠
      .sent ⟨401, .envelope false (.text "Please log in") none⟩ := by
  decide

/-- C8 amended: when the `Authorization` value (absent header included) is
the access token of no user, `authenticateUser` does not call `next()` and
sends status 401 with success false and the response " Please log in ",
the phrase with one leading and one trailing space. -/
theorem authenticateUser_unknown_token (users : List User) (authorization : Option String)
    (h : ∀ u ∈ users, some u.accessToken ≠ authorization) :
    authenticateUser users authorization =
      .sent ⟨401, .envelope false (.text " Please log in ") none⟩ := by
  simp [authenticateUser, findOneByAccessToken_none users authorization h]

theorem authenticateUser_unknown_token_witness :
    (∀ u ∈ sampleDb.users, some u.accessToken ≠ none) ∧
    authenticateUser sampleDb.users none =
      .sent ⟨401, .envelope false (.text " Please log in ") none⟩ :=
  ⟨by decide, authenticateUser_unknown_token sampleDb.users none (by decide)⟩

/-! ## Login: failure -/

/-- C10: a `POST /login` whose username matches no user, or whose string
password `compareSync` rejects against the hash of the matched user, is
answered with 400, success false and the response "Credentials didn't
match" (so no access token), the same in both cases, and the database is
left as it was. -/
theorem login_rejected (B : Bcrypt) (db : Db) (username password : Option String)
    (h : (∀ u ∈ db.users, some u.username ≠ username) ∨
      ∃ user pw, findOneByUsername db.users username = some user ∧ password = some pw ∧
        B.compareSync pw user.password = false) :
    login B db username password =
      (db, ⟨400, .envelope false (.text "Credentials didn't match") none⟩) := by
  rcases h with h | ⟨user, pw, hu, hp, hc⟩
  · simp [login, findOneByUsername_none db.users username h]
  · simp [login, hu, hp, hc]

theorem login_rejected_witness :
    ((∀ u ∈ sampleDb.users, some u.username ≠ some "alice") ∨
      ∃ user pw, findOneByUsername sampleDb.users (some "alice") = some user ∧
        some "password2" = some pw ∧ sampleBcrypt.compareSync pw user.password = false) ∧
    login sampleBcrypt sampleDb (some "alice") (some "password2") =
      (sampleDb, ⟨400, .envelope false (.text "Credentials didn't match") none⟩) :=
  ⟨Or.inr ⟨_, "password2", rfl, rfl, by decide⟩,
    login_rejected sampleBcrypt sampleDb (some "alice") (some "password2")
      (Or.inr ⟨_, "password2", rfl, rfl, by decide⟩)⟩

theorem saveUser_ok (users : List User) (username : Option String) (password : String)
    (d : Draw) (newUser : User) (h : saveUser users username password d = .ok newUser) :
    username = some newUser.username ∧ (∀ u ∈ users, u.username ≠ newUser.username) ∧
      newUser = ⟨d.oid, newUser.username, password, d.token⟩ := by
  unfold saveUser at h
  cases username with
  | none => simp at h
  | some name =>
    simp only at h
    split at h
    · rename_i hn hf
      cases hn
      split_ifs at h with h1 h2
      cases h
      refine ⟨rfl, ?_, rfl⟩
      intro u hu
      simp only [List.any_eq_true, decide_eq_true_eq, not_exists, not_and] at h2
      exact h2 u hu
    · simp at h

theorem register_created (B : Bcrypt) (d : Draw) (db : Db) (username password : Option String)
    (h : (register B d db username password).2.status = 201) :
    ∃ name pw, username = some name ∧ password = some pw ∧
      (∀ u ∈ db.users, u.username ≠ name) ∧
      register B d db username password =
        (⟨db.users ++ [⟨d.oid, name, B.hashSync pw d.salt, d.token⟩], db.thoughts⟩,
          ⟨201, .envelope true (.credentials name d.token d.oid) none⟩) := by
  cases password with
  | none => simp [register] at h
  | some pw =>
    unfold register at h ⊢
    simp only at h ⊢
    split_ifs at h ⊢ with h1 h2
    · simp at h
    · simp at h
    · cases hs : saveUser db.users username (B.hashSync pw d.salt) d with
      | error e => simp [hs] at h
      | ok newUser =>
        obtain ⟨hu, hfree, hnew⟩ := saveUser_ok _ _ _ _ _ hs
        refine ⟨newUser.username, pw, hu, rfl, hfree, ?_⟩
        simp only
        rw [hnew]

theorem find?_username_append_new (users more : List User) (name : String) (newUser : User)
    (hfree : ∀ u ∈ users, u.username ≠ name) (hname : newUser.username = name) :
    (users ++ newUser :: more).find? (fun u => decide (u.username = name)) = some newUser := by
  rw [List.find?_append, find?_username_none users name (by simpa using hfree)]
  simp [hname]

/-! ## Registration: the same username again -/

/-- C2 as stated fails: after a successful registration of "alice", a second
registration of "alice" with a password shorter than 8 is answered with the
password length message, not with "Username already in use". -/
theorem register_again_short_password_message :
    (register sampleBcrypt sampleDraw emptyDb (some "alice") (some "password1")).2.status = 201 ∧
    (register sampleBcrypt sampleDraw
      (register sampleBcrypt sampleDraw emptyDb (some "alice") (some "password1")).1
      (some "alice") (some "short")).2 =
        ⟨400, .envelope false (.text "Password must be at least 8 characters long.") none⟩ ∧
    (register sampleBcrypt sampleDraw
      (register sampleBcrypt sampleDraw emptyDb (some "alice") (some "password1")).1
      (some "alice") (some "short")).2 ≠
        ⟨400, .envelope false (.text "Username already in use") none⟩ := by
  decide

/-- C2 amended: if `POST /register` for a username succeeds, the next
`POST /register` for the same username is answered with status 400 and leaves
the database unchanged whatever its password; the response is "Username
already in use" whenever that password is a string whose `.length` is at
least 8. -/
theorem register_again_rejected (B : Bcrypt) (d1 d2 : Draw) (db : Db)
    (username p1 p2 : Option String)
    (hfirst : (register B d1 db username p1).2.status = 201) :
    (register B d2 (register B d1 db username p1).1 username p2).1 =
        (register B d1 db username p1).1 ∧
      (register B d2 (register B d1 db username p1).1 username p2).2.status = 400 ∧
      ∀ pw, p2 = some pw → 8 ≤ jsLength pw →
        (register B d2 (register B d1 db username p1).1 username p2).2 =
          ⟨400, .envelope false (.text "Username already in use") none⟩ := by
  obtain ⟨name, pw1, hu, -, hfree, hreg⟩ := register_created B d1 db username p1 hfirst
  rw [hreg]
  subst hu
  have hfound := find?_username_append_new db.users [] name
    ⟨d1.oid, name, B.hashSync pw1 d1.salt, d1.token⟩ hfree rfl
  cases p2 with
  | none => simp [register]
  | some pw =>
    by_cases hlen : jsLength pw < 8
    · have hnot : ¬ 8 ≤ jsLength pw := by omega
      simp [register, hlen, hnot]
    · simp [register, hlen, findOneByUsername, hfound]

theorem register_again_rejected_witness :
    (register sampleBcrypt sampleDraw emptyDb (some "alice") (some "password1")).2.status = 201 ∧
    ((register sampleBcrypt sampleDraw
        (register sampleBcrypt sampleDraw emptyDb (some "alice") (some "password1")).1
        (some "alice") (some "password2")).1 =
        (register sampleBcrypt sampleDraw emptyDb (some "alice") (some "password1")).1 ∧
      (register sampleBcrypt sampleDraw
        (register sampleBcrypt sampleDraw emptyDb (some "alice") (some "password1")).1
        (some "alice") (some "password2")).2.status = 400 ∧
      ∀ pw, some "password2" = some pw → 8 ≤ jsLength pw →
        (register sampleBcrypt sampleDraw
          (register sampleBcrypt sampleDraw emptyDb (some "alice") (some "password1")).1
          (some "alice") (some "password2")).2 =
          ⟨400, .envelope false (.text "Username already in use") none⟩) :=
  ⟨by decide, register_again_rejected sampleBcrypt sampleDraw sampleDraw emptyDb
    (some "alice") (some "password1") (some "password2") (by decide)⟩

/-! ## Likes -/

theorem incHearts_split (t : ObjectId) (pre post : List Thoughts) (r : Thoughts)
    (hr : r._id = t) (hpre : ∀ x ∈ pre, x._id ≠ t) :
    incHearts t (pre ++ r :: post) =
      pre ++ { r with hearts := numberInc r.hearts } :: post := by
  induction pre with
  | nil => simp [incHearts, hr]
  | cons x xs ih =>
    have hx : x._id ≠ t := hpre x (by simp)
    have hxs : ∀ y ∈ xs, y._id ≠ t := fun y hy => hpre y (by simp [hy])
    simp [incHearts, hx, ih hxs]

theorem numberInc_exact (h : Int) (hlow : -9007199254740992 ≤ h)
    (hhigh : h < 9007199254740992) : numberInc h = h + 1 := by
  simp [numberInc, hlow, hhigh]

theorem postLike_authenticated (db : Db) (authorization : Option String) (thoughtsID : String)
    (t : ObjectId) (hauth : authenticateUser db.users authorization = .next)
    (hid : castObjectId thoughtsID = some t) :
    postLike db authorization thoughtsID =
      (⟨db.users, incHearts t db.thoughts⟩,
        ⟨200, .envelope true (.document (findThoughtsById db.thoughts t)) none⟩) := by
  simp [postLike, hauth, likeThoughts, hid]

/-- C6 as stated fails: a thought with 2^53 hearts keeps 2^53 hearts after an
authenticated like, because the sum 2^53 + 1 is not a double and rounds back;
the database is the same after the request. -/
theorem like_at_two_pow_53_adds_nothing :
    authenticateUser saturatedBoard.users (some "tok1") = .next ∧
    castObjectId "00000000000000000000000a" = some 10 ∧
    findThoughtsById saturatedBoard.thoughts 10 =
      some ⟨10, some "alice", "hello", 5000, 9007199254740992⟩ ∧
    likeTimes (some "tok1") "00000000000000000000000a" 1 saturatedBoard = saturatedBoard ∧
    (findThoughtsById
      (likeTimes (some "tok1") "00000000000000000000000a" 1 saturatedBoard).thoughts 10).map
        (fun t => t.hearts) ≠ some (9007199254740992 + 1) := by
  decide

/-- C6 amended: when the thought collection holds a document with identifier
`t` whose `hearts` is an integer `h` with -2^53 ≤ h and h + n ≤ 2^53, `n`
authenticated `POST /thoughts/t/like` requests in a row leave the user
collection and every other thought as they were and change, in the document
with identifier `t`, only `hearts`, which becomes `h + n`: each request adds
exactly 1. The identifier in the path is any string Mongoose casts to `t`,
24 hexadecimal digits or 12 characters. -/
theorem likeTimes_adds_n (n : Nat) (db : Db) (authorization : Option String)
    (thoughtsID : String) (t : ObjectId) (pre post : List Thoughts) (r : Thoughts)
    (hauth : authenticateUser db.users authorization = .next)
    (hid : castObjectId thoughtsID = some t)
    (hsplit : db.thoughts = pre ++ r :: post) (hr : r._id = t)
    (hpre : ∀ x ∈ pre, x._id ≠ t)
    (hlow : -9007199254740992 ≤ r.hearts) (hhigh : r.hearts + n ≤ 9007199254740992) :
    likeTimes authorization thoughtsID n db =
      ⟨db.users, pre ++ { r with hearts := r.hearts + n } :: post⟩ := by
  induction n generalizing db r with
  | zero =>
    cases db
    simp only [likeTimes] at *
    simp [hsplit]
  | succ n ih =>
    have hlt : r.hearts < 9007199254740992 := by push_cast at hhigh; omega
    rw [likeTimes, postLike_authenticated db authorization thoughtsID t hauth hid, hsplit,
      incHearts_split t pre post r hr hpre, numberInc_exact r.hearts hlow hlt]
    rw [ih ⟨db.users, pre ++ { r with hearts := r.hearts + 1 } :: post⟩
      { r with hearts := r.hearts + 1 } hauth rfl hr (by simp only; omega)
      (by simp only; push_cast at hhigh; omega)]
    simp only [Db.mk.injEq, true_and, List.append_cancel_left_eq, List.cons.injEq, and_true]
    simp only [Thoughts.mk.injEq, true_and, and_true]
    push_cast
    ring

theorem likeTimes_adds_n_witness :
    authenticateUser [⟨1, "alice", "saltpassword1", "tok1"⟩] (some "tok1") = .next ∧
    castObjectId "aaaaaaaaaaaa" = some 30137771623073100966955934049 ∧
    likeTimes (some "tok1") "aaaaaaaaaaaa" 3
      ⟨[⟨1, "alice", "saltpassword1", "tok1"⟩],
        [⟨9, none, "first", 5, 0⟩,
          ⟨30137771623073100966955934049, some "alice", "second", 6, 4⟩,
          ⟨11, none, "third", 7, 2⟩]⟩ =
      ⟨[⟨1, "alice", "saltpassword1", "tok1"⟩],
        [⟨9, none, "first", 5, 0⟩] ++
          { (⟨30137771623073100966955934049, some "alice", "second", 6, 4⟩ : Thoughts) with
            hearts := 4 + (3 : Nat) } ::
          [⟨11, none, "third", 7, 2⟩]⟩ :=
  ⟨by decide, by decide, likeTimes_adds_n 3
    ⟨[⟨1, "alice", "saltpassword1", "tok1"⟩],
      [⟨9, none, "first", 5, 0⟩,
        ⟨30137771623073100966955934049, some "alice", "second", 6, 4⟩,
        ⟨11, none, "third", 7, 2⟩]⟩
    (some "tok1") "aaaaaaaaaaaa" 30137771623073100966955934049 [⟨9, none, "first", 5, 0⟩]
    [⟨11, none, "third", 7, 2⟩] ⟨30137771623073100966955934049, some "alice", "second", 6, 4⟩
    (by decide) (by decide) rfl rfl (by decide) (by decide) (by decide)⟩

/-- C7 fails on the code: an authenticated like whose identifier is well
formed and held by no thought is answered with status 200, success true and
the response `null`; the database is unchanged. -/
theorem postLike_unknown_thought_succeeds :
    authenticateUser sampleBoard.users (some "tok1") = .next ∧
    castObjectId "00000000000000000000000a" = some 10 ∧
    (∀ t ∈ sampleBoard.thoughts, t._id ≠ 10) ∧
    postLike sampleBoard (some "tok1") "00000000000000000000000a" =
      (sampleBoard, ⟨200, .envelope true (.document none) none⟩) := by
  decide

/-! ## Listing thoughts -/

theorem insertDesc_perm (t : Thoughts) (l : List Thoughts) : (insertDesc t l).Perm (t :: l) := by
  induction l with
  | nil => exact List.Perm.refl _
  | cons x xs ih =>
    unfold insertDesc
    split_ifs
    · exact List.Perm.refl _
    · exact (List.Perm.cons x ih).trans (List.Perm.swap t x xs)

theorem sortDesc_perm (l : List Thoughts) : (sortDesc l).Perm l := by
  induction l with
  | nil => exact List.Perm.refl _
  | cons t ts ih => exact (insertDesc_perm t (sortDesc ts)).trans (List.Perm.cons t ih)

theorem insertDesc_pairwise (t : Thoughts) (l : List Thoughts)
    (h : l.Pairwise (fun a b => b.createdAt ≤ a.createdAt)) :
    (insertDesc t l).Pairwise (fun a b => b.createdAt ≤ a.createdAt) := by
  induction l with
  | nil => simp [insertDesc]
  | cons x xs ih =>
    obtain ⟨hx, hxs⟩ := List.pairwise_cons.mp h
    unfold insertDesc
    split_ifs with hle
    · refine List.pairwise_cons.mpr ⟨?_, h⟩
      intro b hb
      rcases List.mem_cons.mp hb with rfl | hb
      · exact hle
      · exact le_trans (hx b hb) hle
    · refine List.pairwise_cons.mpr ⟨?_, ih hxs⟩
      intro b hb
      rcases List.mem_cons.mp ((insertDesc_perm t xs).subset hb) with rfl | hb
      · exact le_of_lt (not_le.mp hle)
      · exact hx b hb

theorem sortDesc_pairwise (l : List Thoughts) :
    (sortDesc l).Pairwise (fun a b => b.createdAt ≤ a.createdAt) := by
  induction l with
  | nil => simp [sortDesc]
  | cons t ts ih => exact insertDesc_pairwise t (sortDesc ts) ih

/-- C5: once the middleware lets the request through, `GET /thoughts` answers
201 with a list of exactly min(n, 20) of the n stored thoughts, in
non-increasing order of `createdAt`; the listed documents together with the
ones left out are the stored collection, and no listed document is older than
one left out. -/
theorem getThoughts_newest_twenty (db : Db) (authorization : Option String)
    (hauth : authenticateUser db.users authorization = .next) :
    ∃ shown rest, getThoughts db authorization = (db, ⟨201, .list shown⟩) ∧
      shown.length = min db.thoughts.length 20 ∧
      shown.Pairwise (fun a b => b.createdAt ≤ a.createdAt) ∧
      (shown ++ rest).Perm db.thoughts ∧
      ∀ a ∈ shown, ∀ b ∈ rest, b.createdAt ≤ a.createdAt := by
  refine ⟨(sortDesc db.thoughts).take 20, (sortDesc db.thoughts).drop 20, ?_, ?_, ?_, ?_, ?_⟩
  · simp [getThoughts, hauth, listThoughts]
  · rw [List.length_take, (sortDesc_perm db.thoughts).length_eq, min_comm]
  · exact (sortDesc_pairwise db.thoughts).sublist (List.take_sublist _ _)
  · rw [List.take_append_drop]
    exact sortDesc_perm db.thoughts
  · have h := sortDesc_pairwise db.thoughts
    rw [← List.take_append_drop 20 (sortDesc db.thoughts), List.pairwise_append] at h
    exact h.2.2

theorem getThoughts_newest_twenty_witness :
    authenticateUser sampleBoard.users (some "tok1") = .next ∧
    ∃ shown rest, getThoughts sampleBoard (some "tok1") = (sampleBoard, ⟨201, .list shown⟩) ∧
      shown.length = min sampleBoard.thoughts.length 20 ∧
      shown.Pairwise (fun a b => b.createdAt ≤ a.createdAt) ∧
      (shown ++ rest).Perm sampleBoard.thoughts ∧
      ∀ a ∈ shown, ∀ b ∈ rest, b.createdAt ≤ a.createdAt :=
  ⟨by decide, getThoughts_newest_twenty sampleBoard (some "tok1") (by decide)⟩

/-! ## The user collection along a run -/

theorem register_db (B : Bcrypt) (d : Draw) (db : Db) (username password : Option String) :
    (register B d db username password).1 = db ∨
      (register B d db username password).2.status = 201 := by
  cases password with
  | none => simp [register]
  | some pw =>
    unfold register
    simp only
    split_ifs
    · exact Or.inl rfl
    · exact Or.inl rfl
    · cases saveUser db.users username (B.hashSync pw d.salt) d with
      | error e => exact Or.inl rfl
      | ok newUser => exact Or.inr rfl

theorem login_db (B : Bcrypt) (db : Db) (username password : Option String) :
    (login B db username password).1 = db := by
  unfold login
  cases findOneByUsername db.users username with
  | none => rfl
  | some user =>
    cases password with
    | none => rfl
    | some pw =>
      simp only
      split_ifs <;> rfl

theorem getThoughts_db (db : Db) (authorization : Option String) :
    (getThoughts db authorization).1 = db := by
  unfold getThoughts
  cases authenticateUser db.users authorization <;> rfl

theorem postThoughts_users (d : Draw) (db : Db) (username message : Option String) :
    (postThoughts d db username message).1.users = db.users := by
  unfold postThoughts
  cases saveThoughts db.thoughts username message d <;> rfl

theorem postLike_users (db : Db) (authorization : Option String) (thoughtsID : String) :
    (postLike db authorization thoughtsID).1.users = db.users := by
  unfold postLike
  cases authenticateUser db.users authorization with
  | sent res => rfl
  | next =>
    unfold likeThoughts
    cases castObjectId thoughtsID <;> rfl

theorem handle_users (B : Bcrypt) (db : Db) (d : Draw) (req : Request) :
    (handle B db d req).1.users = db.users ∨
      ∃ newUser, (handle B db d req).1.users = db.users ++ [newUser] ∧
        ∀ u ∈ db.users, u.username ≠ newUser.username := by
  cases req with
  | root => exact Or.inl rfl
  | register username password =>
    rcases register_db B d db username password with h | h
    · exact Or.inl (by simp [handle, h])
    · obtain ⟨name, pw, -, -, hfree, hreg⟩ := register_created B d db username password h
      exact Or.inr ⟨⟨d.oid, name, B.hashSync pw d.salt, d.token⟩, by simp [handle, hreg], hfree⟩
  | login username password => exact Or.inl (by simp [handle, login_db])
  | getThoughts authorization => exact Or.inl (by simp [handle, getThoughts_db])
  | postThoughts authorization username message =>
    exact Or.inl (by simp [handle, postThoughts_users])
  | postLike authorization thoughtsID => exact Or.inl (by simp [handle, postLike_users])

theorem run_users_append (B : Bcrypt) (reqs : List (Draw × Request)) (db : Db) :
    ∃ more, (run B db reqs).users = db.users ++ more := by
  induction reqs generalizing db with
  | nil => exact ⟨[], by simp [run]⟩
  | cons dr rest ih =>
    obtain ⟨d, req⟩ := dr
    obtain ⟨more, hmore⟩ := ih (handle B db d req).1
    rcases handle_users B db d req with h | ⟨newUser, h, -⟩
    · exact ⟨more, by rw [run, hmore, h]⟩
    · exact ⟨newUser :: more, by rw [run, hmore, h]; simp⟩

theorem run_usernames_nodup (B : Bcrypt) (reqs : List (Draw × Request)) (db : Db)
    (h : (db.users.map (fun u => u.username)).Nodup) :
    ((run B db reqs).users.map (fun u => u.username)).Nodup := by
  induction reqs generalizing db with
  | nil => exact h
  | cons dr rest ih =>
    obtain ⟨d, req⟩ := dr
    rw [run]
    apply ih
    rcases handle_users B db d req with hu | ⟨newUser, hu, hfree⟩
    · rw [hu]
      exact h
    · rw [hu, List.map_append, List.nodup_append]
      refine ⟨h, by simp, ?_⟩
      intro a ha hb
      simp only [List.map_cons, List.map_nil, List.mem_singleton] at hb
      obtain ⟨u, hmem, hname⟩ := List.mem_map.mp ha
      exact hfree u hmem (hname.trans hb)

/-- C9: in every database reached from the empty one by handling any
sequence of requests one after another, no two user documents have the same
username. -/
theorem usernames_unique (B : Bcrypt) (reqs : List (Draw × Request)) :
    ((run B emptyDb reqs).users.map (fun u => u.username)).Nodup :=
  run_usernames_nodup B reqs emptyDb (by simp [emptyDb])

/-! ## Registration followed by login or by a protected request -/

/-- C3: if `POST /register` with username `u` and password `p` succeeds and
returns the token `T`, and `compareSync` accepts `p` against the hash made
from `p` at registration, then after any further sequence of requests
`POST /login` with `u` and `p` answers 200 with success true and the same
username, access token and id as the registration did, and changes nothing. -/
theorem register_then_login (B : Bcrypt) (d : Draw) (db : Db) (u p : String)
    (name T : String) (id : ObjectId) (reqs : List (Draw × Request))
    (hreg : (register B d db (some u) (some p)).2 =
      ⟨201, .envelope true (.credentials name T id) none⟩)
    (hcmp : B.compareSync p (B.hashSync p d.salt) = true) :
    login B (run B (register B d db (some u) (some p)).1 reqs) (some u) (some p) =
      (run B (register B d db (some u) (some p)).1 reqs,
        ⟨200, .envelope true (.credentials name T id) none⟩) := by
  have hst : (register B d db (some u) (some p)).2.status = 201 := by rw [hreg]
  obtain ⟨name1, pw, hu, hp, hfree, hcreated⟩ := register_created B d db (some u) (some p) hst
  cases hu
  cases hp
  rw [hcreated] at hreg ⊢
  simp only [Response.mk.injEq, Body.envelope.injEq, Payload.credentials.injEq, true_and,
    and_true] at hreg
  obtain ⟨hn, ht, hi⟩ := hreg
  subst hn ht hi
  obtain ⟨more, hmore⟩ := run_users_append B reqs
    ⟨db.users ++ [⟨d.oid, u, B.hashSync p d.salt, d.token⟩], db.thoughts⟩
  have hfound : findOneByUsername
      (run B ⟨db.users ++ [⟨d.oid, u, B.hashSync p d.salt, d.token⟩], db.thoughts⟩ reqs).users
      (some u) = some ⟨d.oid, u, B.hashSync p d.salt, d.token⟩ := by
    rw [hmore]
    simp only [findOneByUsername, List.append_assoc, List.singleton_append]
    exact find?_username_append_new db.users more u _ hfree rfl
  simp [login, hfound, hcmp]

theorem register_then_login_witness :
    (register sampleBcrypt sampleDraw sampleDb (some "bob") (some "password2")).2 =
      ⟨201, .envelope true (.credentials "bob" "tok2" 2) none⟩ ∧
    login sampleBcrypt (run sampleBcrypt
        (register sampleBcrypt sampleDraw sampleDb (some "bob") (some "password2")).1
        [(⟨"salt", "tok3", 3, 1001⟩, .postThoughts none (some "bob") (some "hello")),
          (⟨"salt", "tok4", 4, 1002⟩, .register (some "carol") (some "password3"))])
      (some "bob") (some "password2") =
      (run sampleBcrypt
        (register sampleBcrypt sampleDraw sampleDb (some "bob") (some "password2")).1
        [(⟨"salt", "tok3", 3, 1001⟩, .postThoughts none (some "bob") (some "hello")),
          (⟨"salt", "tok4", 4, 1002⟩, .register (some "carol") (some "password3"))],
        ⟨200, .envelope true (.credentials "bob" "tok2" 2) none⟩) :=
  ⟨by decide, register_then_login sampleBcrypt sampleDraw sampleDb "bob" "password2" "bob" "tok2" 2
    [(⟨"salt", "tok3", 3, 1001⟩, .postThoughts none (some "bob") (some "hello")),
      (⟨"salt", "tok4", 4, 1002⟩, .register (some "carol") (some "password3"))]
    (by decide) (by decide)⟩

/-- C4: if `POST /register` succeeds and returns the token `T`, then after
any further sequence of requests `authenticateUser` called with the
`Authorization` value `T` calls `next()`, sending no response of its own, so
that `GET /thoughts` and `POST /thoughts/:thoughtsID/like` reach their
handlers. -/
theorem registered_token_passes (B : Bcrypt) (d : Draw) (db : Db) (username password : Option String)
    (name T : String) (id : ObjectId) (reqs : List (Draw × Request)) (thoughtsID : String)
    (hreg : (register B d db username password).2 =
      ⟨201, .envelope true (.credentials name T id) none⟩) :
    authenticateUser (run B (register B d db username password).1 reqs).users (some T) = .next ∧
      getThoughts (run B (register B d db username password).1 reqs) (some T) =
        listThoughts (run B (register B d db username password).1 reqs) ∧
      postLike (run B (register B d db username password).1 reqs) (some T) thoughtsID =
        likeThoughts (run B (register B d db username password).1 reqs) thoughtsID := by
  have hst : (register B d db username password).2.status = 201 := by rw [hreg]
  obtain ⟨name1, pw, -, -, -, hcreated⟩ := register_created B d db username password hst
  rw [hcreated] at hreg ⊢
  simp only [Response.mk.injEq, Body.envelope.injEq, Payload.credentials.injEq, true_and,
    and_true] at hreg
  obtain ⟨-, ht, -⟩ := hreg
  subst ht
  obtain ⟨more, hmore⟩ := run_users_append B reqs
    ⟨db.users ++ [⟨d.oid, name1, B.hashSync pw d.salt, d.token⟩], db.thoughts⟩
  have hauth : authenticateUser
      (run B ⟨db.users ++ [⟨d.oid, name1, B.hashSync pw d.salt, d.token⟩], db.thoughts⟩
        reqs).users (some d.token) = .next := by
    rw [hmore]
    have hsome : ((db.users ++ [(⟨d.oid, name1, B.hashSync pw d.salt, d.token⟩ : User)]
        ++ more).find? (fun u => decide (u.accessToken = d.token))).isSome = true := by
      rw [List.find?_isSome]
      exact ⟨⟨d.oid, name1, B.hashSync pw d.salt, d.token⟩, by simp, by simp⟩
    obtain ⟨user, huser⟩ := Option.isSome_iff_exists.mp hsome
    simp only [authenticateUser, findOneByAccessToken, huser]
  exact ⟨hauth, by simp [getThoughts, hauth], by simp [postLike, hauth]⟩

theorem registered_token_passes_witness :
    (register sampleBcrypt sampleDraw sampleDb (some "bob") (some "password2")).2 =
      ⟨201, .envelope true (.credentials "bob" "tok2" 2) none⟩ ∧
    (authenticateUser (run sampleBcrypt
        (register sampleBcrypt sampleDraw sampleDb (some "bob") (some "password2")).1
        [(⟨"salt", "tok4", 4, 1002⟩, .register (some "carol") (some "password3"))]).users
        (some "tok2") = .next ∧
      getThoughts (run sampleBcrypt
        (register sampleBcrypt sampleDraw sampleDb (some "bob") (some "password2")).1
        [(⟨"salt", "tok4", 4, 1002⟩, .register (some "carol") (some "password3"))])
        (some "tok2") =
        listThoughts (run sampleBcrypt
          (register sampleBcrypt sampleDraw sampleDb (some "bob") (some "password2")).1
          [(⟨"salt", "tok4", 4, 1002⟩, .register (some "carol") (some "password3"))]) ∧
      postLike (run sampleBcrypt
        (register sampleBcrypt sampleDraw sampleDb (some "bob") (some "password2")).1
        [(⟨"salt", "tok4", 4, 1002⟩, .register (some "carol") (some "password3"))])
        (some "tok2") "00000000000000000000000a" =
        likeThoughts (run sampleBcrypt
          (register sampleBcrypt sampleDraw sampleDb (some "bob") (some "password2")).1
          [(⟨"salt", "tok4", 4, 1002⟩, .register (some "carol") (some "password3"))])
          "00000000000000000000000a") :=
  ⟨by decide, registered_token_passes sampleBcrypt sampleDraw sampleDb (some "bob")
    (some "password2") "bob" "tok2" 2
    [(⟨"salt", "tok4", 4, 1002⟩, .register (some "carol") (some "password3"))]
    "00000000000000000000000a" (by decide)⟩

end ProjectAuth
